import Mathlib

/-!
Verification of the signal-fusion orchestrator of the foot-traffic
forecasting backend.

The embedding models the Python modules `backend/agents/master_agent.py`
(the `MasterFootTrafficAgent` class: `run` and `combine_signals`) and
`backend/main.py` (the forecast cache `_cache_key`, `_get_cached`,
`_set_cached` and the endpoint `get_foot_traffic_forecast`).

Numbers: Python floats are modelled as exact rationals; Python's built-in
`round(x, n)` is round-half-to-even on the value, modelled by `rhe` below.

Signals: every signal dict the source constructs (the three normalizers at
lines 33-58 and the fallback branch at lines 103-108 of master_agent.py)
has exactly the four keys `source`, `extra_customers_per_hour`,
`confidence`, `explanation`; the structure `Signal` carries those fields
and `Signal.toDict` recovers the literal dict, so statements about which
keys a produced signal dict holds remain expressible.

Fallibility: Python exceptions are modelled with `Except String`; the one
reachable exception in the modelled region is the `ZeroDivisionError`
raised by `combine_signals` when `len(signals) == 0` (the overall
confidence divides by `len(signals)` with no guard).
-/

namespace FootTraffic

/-- A Python value as it can appear in one of the signal dicts. -/
inductive PyVal where
  | num (q : ℚ)
  | str (s : String)
  | bool (b : Bool)
  deriving DecidableEq, Repr

/-- One provider signal: the dict shape produced by the normalizers and by
the fallback branch of `MasterFootTrafficAgent.run` (master_agent.py). -/
structure Signal where
  source : String
  extra_customers_per_hour : ℚ
  confidence : ℚ
  explanation : String
  deriving DecidableEq, Repr

/-- The literal dict a `Signal` stands for: exactly the four keys that
every signal-constructing site in master_agent.py writes, in source
order. No site writes any other key (in particular no `succeeded`). -/
def Signal.toDict (s : Signal) : List (String × PyVal) :=
  [("source", .str s.source),
   ("extra_customers_per_hour", .num s.extra_customers_per_hour),
   ("confidence", .num s.confidence),
   ("explanation", .str s.explanation)]

/-- Round half to even at integer precision: the rounding mode of Python's
built-in `round` (banker's rounding), on exact rationals. -/
def rhe (x : ℚ) : ℤ :=
  if Int.fract x < 1/2 then ⌊x⌋
  else if 1/2 < Int.fract x then ⌊x⌋ + 1
  else if ⌊x⌋ % 2 = 0 then ⌊x⌋ else ⌊x⌋ + 1

/-- Python `round(x, 1)`. -/
def pyRound1 (x : ℚ) : ℚ := (rhe (10 * x) : ℚ) / 10

/-- Python `round(x, 2)`. -/
def pyRound2 (x : ℚ) : ℚ := (rhe (100 * x) : ℚ) / 100

/-- Per-signal effective weight, master_agent.py line 130:
`w = max(0.05, s["confidence"])`. Note there is no upper clamp. -/
def weight (c : ℚ) : ℚ := max (1/20) c

/-- The loop accumulator `weight_total` of `combine_signals`
(lines 126-132). -/
def weight_total (signals : List Signal) : ℚ :=
  (signals.map (fun s => weight s.confidence)).sum

/-- The loop accumulator `weighted_sum` of `combine_signals`
(lines 126-132). -/
def weighted_sum (signals : List Signal) : ℚ :=
  (signals.map (fun s => s.extra_customers_per_hour * weight s.confidence)).sum

/-- Line 134: `extra_customers = weighted_sum / weight_total if
weight_total > 0 else 0.0`. -/
def extra_raw (signals : List Signal) : ℚ :=
  if 0 < weight_total signals then weighted_sum signals / weight_total signals else 0

/-- Line 137, the guardrail clamp: `extra_customers =
max(-0.5 * self.baseline, min(extra_customers, 1.5 * self.baseline))`. -/
def extra_clamped (baseline : ℚ) (signals : List Signal) : ℚ :=
  max (-(1/2) * baseline) (min (extra_raw signals) ((3/2) * baseline))

/-- Line 140: `pct = (extra_customers / self.baseline) * 100 if
self.baseline else 0` (a zero baseline is falsy). -/
def pctOf (baseline : ℚ) (signals : List Signal) : ℚ :=
  if baseline ≠ 0 then extra_clamped baseline signals / baseline * 100 else 0

/-- Lines 141-150: the summary bucket chain, evaluated top to bottom. -/
def summaryOf (pct : ℚ) : List String :=
  if 50 ≤ pct then ["Much higher than usual"]
  else if 15 ≤ pct then ["Above baseline today"]
  else if -15 ≤ pct then ["On par with usual"]
  else if -40 ≤ pct then ["Below baseline today"]
  else ["Much lower than usual"]

/-- The dict returned by `combine_signals` (lines 152-157). -/
structure Fused where
  expected_extra_customers_per_hour : ℚ
  expected_total_customers_per_hour : ℚ
  confidence : ℚ
  summary : List String
  deriving DecidableEq, Repr

/-- `MasterFootTrafficAgent.combine_signals` (lines 122-157). The overall
confidence on line 155 divides by `len(signals)` with no guard, so the
empty list raises `ZeroDivisionError`; every other division in the body is
guarded. -/
def combine_signals (baseline : ℚ) (signals : List Signal) : Except String Fused :=
  if signals = [] then .error "division by zero"
  else .ok
    { expected_extra_customers_per_hour := pyRound1 (extra_clamped baseline signals)
      expected_total_customers_per_hour := pyRound1 (baseline + extra_clamped baseline signals)
      confidence := pyRound2 (min 1 (weight_total signals / (signals.length : ℚ)))
      summary := summaryOf (pctOf baseline signals) }

/-- The fallback signal synthesized for a failed provider
(master_agent.py lines 101-108): delta 0, confidence 0.05, explanation
`"Agent error: " + str(out)[:200]`. -/
def fallbackSignal (name msg : String) : Signal :=
  { source := name
    extra_customers_per_hour := 0
    confidence := 1/20
    explanation := "Agent error: " ++ msg.take 200 }

/-- Lines 100-111 of `run`: a settled provider result becomes its
normalized signal on success and the fallback signal on exception. The
normalizers (lines 33-58) each produce a four-key signal dict from the raw
provider output; a success here carries that normalized signal. -/
def resolveSignal (r : Except String Signal) (name : String) : Signal :=
  match r with
  | .error e => fallbackSignal name e
  | .ok s => s

/-- The dict returned by `MasterFootTrafficAgent.run` (lines 116-120). -/
structure RunResult where
  baseline_customers_per_hour : ℚ
  signals : List Signal
  final_forecast : Fused
  deriving DecidableEq, Repr

/-- `MasterFootTrafficAgent.run` (lines 69-120): the three provider tasks
settle (success or exception, `return_exceptions=True`), each is resolved
to a signal in registration order, and the complete list is fused. An
exception escaping `combine_signals` would escape `run` as well. -/
def runAgent (baseline : ℚ) (r0 r1 r2 : Except String Signal) :
    Except String RunResult :=
  let signals := [resolveSignal r0 "weather_event",
                  resolveSignal r1 "google_traffic",
                  resolveSignal r2 "mta_subway"]
  (combine_signals baseline signals).map
    (fun c => { baseline_customers_per_hour := baseline
                signals := signals
                final_forecast := c })

/-- Line 86 of main.py: `date or ''` — a None or empty date is replaced by
the empty string (falsy check). -/
def dateStr (d : Option String) : String :=
  match d with
  | some s => if s = "" then "" else s
  | none => ""

/-- Line 86 of main.py: `time or ''` — a None or ZERO hour is replaced by
the empty string, because `0` is falsy in Python. -/
def timeStr (t : Option ℤ) : String :=
  match t with
  | some n => if n = 0 then "" else toString n
  | none => ""

/-- `_cache_key` (main.py lines 85-86): the key is the f-string
`f"{baseline}_{date or ''}_{time or ''}"`. Python's `str` on floats is
injective and yields no underscore, and the hour segment has no
underscore, so two keys are equal exactly when the three segments agree
componentwise; the key is modelled as that component triple, with the
baseline segment carried as the exact value. No rounding is applied to
the baseline. -/
def cache_key (baseline : ℚ) (date : Option String) (t : Option ℤ) :
    ℚ × String × String :=
  (baseline, dateStr date, timeStr t)

/-- The in-memory forecast cache `_FORECAST_CACHE`: key to
(expiry timestamp, stored run result). -/
def Cache : Type := ℚ × String × String → Option (ℚ × RunResult)

/-- A cache with no entries. -/
def emptyCache : Cache := fun _ => none

/-- `_CACHE_TTL_SECONDS = 30 * 60` (main.py line 82). -/
def CACHE_TTL_SECONDS : ℚ := 30 * 60

/-- `_get_cached` (main.py lines 89-97): absent key is a miss; a key at or
past its expiry (`now_ts >= expiry`) is deleted and reported a miss; an
unexpired key returns the stored result with the cache unchanged. Returns
(looked-up value, cache after the call). -/
def getCached (c : Cache) (now : ℚ) (k : ℚ × String × String) :
    Option RunResult × Cache :=
  match c k with
  | none => (none, c)
  | some (expiry, result) =>
      if expiry ≤ now then (none, fun j => if j = k then none else c j)
      else (some result, c)

/-- `_set_cached` (main.py lines 100-101): store under `k` with expiry
`now + TTL`. -/
def setCached (c : Cache) (now : ℚ) (k : ℚ × String × String)
    (v : RunResult) : Cache :=
  fun j => if j = k then some (now + CACHE_TTL_SECONDS, v) else c j

/-- `DEFAULT_BASELINE = 42.0` (main.py line 78). -/
def DEFAULT_BASELINE : ℚ := 42

/-- `get_foot_traffic_forecast` (main.py lines 181-211): resolve the
baseline (default on None), compute the key, consult the cache; on a hit
return the cached result with NO provider dispatch; on a miss run the
agent (dispatching all three providers) and store the result. The third
component records whether the provider dispatch happened. The
business-insights bullets are produced by an external LLM call and are
not modelled; no claim touches them. -/
def forecastEndpoint (cache : Cache) (now : ℚ) (baseline : Option ℚ)
    (date : Option String) (t : Option ℤ)
    (r0 r1 r2 : Except String Signal) :
    Except String RunResult × Cache × Bool :=
  let b := match baseline with
    | some x => x
    | none => DEFAULT_BASELINE
  let key := cache_key b date t
  match getCached cache now key with
  | (some cached, c1) => (.ok cached, c1, false)
  | (none, c1) =>
      match runAgent b r0 r1 r2 with
      | .error e => (.error e, c1, true)
      | .ok res => (.ok res, setCached c1 now key res, true)

/-! ## Spec-side definitions for the refinement comparison of claim C3 -/

/-- Modelled from the spec for comparison: the per-signal weight the claim
asserts, `max(0.05, min(1.0, confidence))` — confidence clamped to 1.0
before weighting. -/
def weightClamped (c : ℚ) : ℚ := max (1/20) (min 1 c)

/-- Modelled from the spec for comparison: the `weight_total` accumulator
computed with the clamped weights. -/
def weight_totalClamped (signals : List Signal) : ℚ :=
  (signals.map (fun s => weightClamped s.confidence)).sum

/-- Modelled from the spec for comparison: the `weighted_sum` accumulator
computed with the clamped weights. -/
def weighted_sumClamped (signals : List Signal) : ℚ :=
  (signals.map (fun s => s.extra_customers_per_hour * weightClamped s.confidence)).sum

/-! ## Helper lemmas -/

lemma rhe_eq_of_floor (x : ℚ) (n : ℤ) (hn : ⌊x⌋ = n) :
    rhe x = if x - n < 1/2 then n
      else if 1/2 < x - n then n + 1
      else if n % 2 = 0 then n else n + 1 := by
  simp [rhe, Int.fract, hn]

lemma rhe_intCast (n : ℤ) : rhe (n : ℚ) = n := by
  simp [rhe, Int.fract]

lemma rhe_sub_le (x : ℚ) : |(rhe x : ℚ) - x| ≤ 1/2 := by
  have h0 : 0 ≤ Int.fract x := Int.fract_nonneg x
  have h1 : Int.fract x < 1 := Int.fract_lt_one x
  have hf : x - Int.fract x = (⌊x⌋ : ℚ) := Int.self_sub_fract x
  rw [rhe]
  split_ifs <;> rw [abs_le] <;> push_cast <;> constructor <;> linarith

lemma pyRound1_eq_self (x : ℚ) (n : ℤ) (hx : 10 * x = (n : ℚ)) :
    pyRound1 x = x := by
  rw [pyRound1, hx, rhe_intCast]
  linarith

lemma pyRound2_eq_self (x : ℚ) (n : ℤ) (hx : 100 * x = (n : ℚ)) :
    pyRound2 x = x := by
  rw [pyRound2, hx, rhe_intCast]
  linarith

lemma pyRound1_sub_le (x : ℚ) : |pyRound1 x - x| ≤ 1/20 := by
  have h := rhe_sub_le (10 * x)
  rw [pyRound1]
  rw [abs_le] at h ⊢
  constructor <;> [linarith [h.1]; linarith [h.2]]

lemma weight_total_pos (s : List Signal) (h : s ≠ []) : 0 < weight_total s := by
  refine List.sum_pos _ (fun x hx => ?_) (by simpa using h)
  obtain ⟨sig, _, rfl⟩ := List.mem_map.mp hx
  have : (1/20 : ℚ) ≤ weight sig.confidence := le_max_left _ _
  linarith

lemma combine_signals_eq_ok (b : ℚ) (s : List Signal) (h : s ≠ []) :
    combine_signals b s = .ok
      { expected_extra_customers_per_hour := pyRound1 (extra_clamped b s)
        expected_total_customers_per_hour := pyRound1 (b + extra_clamped b s)
        confidence := pyRound2 (min 1 (weight_total s / (s.length : ℚ)))
        summary := summaryOf (pctOf b s) } := by
  rw [combine_signals, if_neg h]

lemma neg_half_le_extra_clamped (b : ℚ) (s : List Signal) :
    -(1/2) * b ≤ extra_clamped b s :=
  le_max_left _ _

lemma extra_clamped_le (b : ℚ) (s : List Signal) (hb : 0 < b) :
    extra_clamped b s ≤ 3/2 * b := by
  rw [extra_clamped]
  apply max_le
  · linarith
  · exact le_trans (min_le_right _ _) (by linarith)

lemma runAgent_eq (b : ℚ) (r0 r1 r2 : Except String Signal) :
    runAgent b r0 r1 r2 = .ok
      { baseline_customers_per_hour := b
        signals := [resolveSignal r0 "weather_event",
                    resolveSignal r1 "google_traffic",
                    resolveSignal r2 "mta_subway"]
        final_forecast :=
          { expected_extra_customers_per_hour :=
              pyRound1 (extra_clamped b [resolveSignal r0 "weather_event",
                resolveSignal r1 "google_traffic", resolveSignal r2 "mta_subway"])
            expected_total_customers_per_hour :=
              pyRound1 (b + extra_clamped b [resolveSignal r0 "weather_event",
                resolveSignal r1 "google_traffic", resolveSignal r2 "mta_subway"])
            confidence :=
              pyRound2 (min 1 (weight_total [resolveSignal r0 "weather_event",
                resolveSignal r1 "google_traffic", resolveSignal r2 "mta_subway"] / 3))
            summary := summaryOf (pctOf b [resolveSignal r0 "weather_event",
              resolveSignal r1 "google_traffic", resolveSignal r2 "mta_subway"]) } } := by
  rw [runAgent, combine_signals_eq_ok _ _ (by simp)]
  norm_num [Except.map]

/-- Plumbing for concrete evaluations of `combine_signals`: the result is
`.ok` of the four evaluated fields. -/
lemma combine_eval (b : ℚ) (s : List Signal) (hne : s ≠ [])
    (e : ℚ) (hex : extra_clamped b s = e)
    (v1 : ℚ) (h1 : pyRound1 e = v1)
    (v2 : ℚ) (h2 : pyRound1 (b + e) = v2)
    (v3 : ℚ) (h3 : pyRound2 (min 1 (weight_total s / (s.length : ℚ))) = v3)
    (L : List String) (h4 : summaryOf (pctOf b s) = L) :
    combine_signals b s = .ok ⟨v1, v2, v3, L⟩ := by
  rw [combine_signals_eq_ok _ _ hne, hex, h1, h2, h3, h4]

/-- One signal of delta 1 and confidence 1 at baseline 42 fuses to extra 1
and total 43. -/
lemma combine_42_one :
    combine_signals 42 [⟨"x", 1, 1, ""⟩] = .ok ⟨1, 43, 1, ["On par with usual"]⟩ := by
  have hwt : weight_total [⟨"x", 1, 1, ""⟩] = 1 := by
    simp [weight_total, weight]
    norm_num
  have hws : weighted_sum [⟨"x", 1, 1, ""⟩] = 1 := by
    simp [weighted_sum, weight]
    norm_num
  have hex : extra_clamped 42 [⟨"x", 1, 1, ""⟩] = 1 := by
    rw [extra_clamped, extra_raw, hwt, hws]
    norm_num
  refine combine_eval 42 _ (by simp) 1 hex 1 (pyRound1_eq_self 1 10 (by norm_num))
    43 (by rw [show (42 : ℚ) + 1 = 43 by norm_num]; exact pyRound1_eq_self 43 430 (by norm_num))
    1 ?_ _ ?_
  · rw [hwt]
    norm_num [pyRound2_eq_self 1 100 (by norm_num)]
  · rw [pctOf, if_pos (by norm_num), hex, summaryOf]
    norm_num

/-- C1, counterexample. At baseline 0.12 a single full-confidence signal of
delta 1 is clamped to 1.5 × 0.12 = 0.18, but the returned
`expected_extra_customers_per_hour` is `round(0.18, 1) = 0.2`, which
exceeds 1.5 × baseline. -/
theorem guardrail_violated_by_rounding :
    combine_signals (3/25) [⟨"x", 1, 1, ""⟩] =
      .ok ⟨1/5, 3/10, 1, ["Much higher than usual"]⟩ ∧
    ¬ ((1 : ℚ)/5 ≤ 3/2 * (3/25)) := by
  have hwt : weight_total [⟨"x", 1, 1, ""⟩] = 1 := by
    simp [weight_total, weight]
    norm_num
  have hws : weighted_sum [⟨"x", 1, 1, ""⟩] = 1 := by
    simp [weighted_sum, weight]
    norm_num
  have hex : extra_clamped (3/25) [⟨"x", 1, 1, ""⟩] = 9/50 := by
    rw [extra_clamped, extra_raw, hwt, hws]
    norm_num
  refine ⟨combine_eval _ _ (by simp) (9/50) hex (1/5) ?_ (3/10) ?_ 1 ?_ _ ?_, by norm_num⟩
  · rw [pyRound1, show (10 : ℚ) * (9/50) = 9/5 by norm_num,
      rhe_eq_of_floor (9/5) 1 (by norm_num [Int.floor_eq_iff])]
    norm_num
  · rw [show (3 : ℚ)/25 + 9/50 = 3/10 by norm_num]
    exact pyRound1_eq_self _ 3 (by norm_num)
  · rw [hwt]
    norm_num [pyRound2_eq_self 1 100 (by norm_num)]
  · rw [pctOf, if_pos (by norm_num), hex, summaryOf]
    norm_num

/-- C1, amended. For every baseline > 0 the clamped extra value (line 137)
satisfies the guardrail bound exactly; the returned
`expected_extra_customers_per_hour` is that value rounded to one decimal,
so it satisfies the bound only up to half a rounding unit (1/20). -/
theorem guardrail_bound_holds_before_rounding (b : ℚ) (s : List Signal) (r : Fused)
    (hb : 0 < b) (hr : combine_signals b s = .ok r) :
    (-(1/2) * b ≤ extra_clamped b s ∧ extra_clamped b s ≤ 3/2 * b) ∧
    (-(1/2) * b - 1/20 ≤ r.expected_extra_customers_per_hour ∧
      r.expected_extra_customers_per_hour ≤ 3/2 * b + 1/20) := by
  have hne : s ≠ [] := by
    intro h
    rw [h] at hr
    simp [combine_signals] at hr
  rw [combine_signals_eq_ok _ _ hne] at hr
  simp only [Except.ok.injEq] at hr
  subst hr
  have h1 := neg_half_le_extra_clamped b s
  have h2 := extra_clamped_le b s hb
  have h3 := pyRound1_sub_le (extra_clamped b s)
  rw [abs_le] at h3
  exact ⟨⟨h1, h2⟩, by constructor <;> [linarith [h3.1]; linarith [h3.2]]⟩

/-- C1, witness for the amended theorem at baseline 42 and one signal. -/
theorem guardrail_bound_holds_before_rounding_witness :
    (-(1/2) * 42 ≤ extra_clamped 42 [⟨"x", 1, 1, ""⟩] ∧
      extra_clamped 42 [⟨"x", 1, 1, ""⟩] ≤ 3/2 * 42) ∧
    (-(1/2) * 42 - 1/20 ≤ (1 : ℚ) ∧ (1 : ℚ) ≤ 3/2 * 42 + 1/20) := by
  have h := guardrail_bound_holds_before_rounding 42 [⟨"x", 1, 1, ""⟩]
    ⟨1, 43, 1, ["On par with usual"]⟩ (by norm_num) combine_42_one
  simpa using h

/-- C4, counterexample. At baseline 0.04 with one zero-delta signal the
returned total is `round(0.04, 1) = 0.0` and the returned extra is `0.0`,
so total ≠ baseline + extra for the two fields as returned. -/
theorem total_not_sum_of_returned_fields :
    combine_signals (1/25) [⟨"weather_event", 0, 1, ""⟩] =
      .ok ⟨0, 0, 1, ["On par with usual"]⟩ ∧
    ¬ ((0 : ℚ) = 1/25 + 0) := by
  have hwt : weight_total [⟨"weather_event", 0, 1, ""⟩] = 1 := by
    simp [weight_total, weight]
    norm_num
  have hws : weighted_sum [⟨"weather_event", 0, 1, ""⟩] = 0 := by
    simp [weighted_sum, weight]
  have hex : extra_clamped (1/25) [⟨"weather_event", 0, 1, ""⟩] = 0 := by
    rw [extra_clamped, extra_raw, hwt, hws]
    norm_num
  refine ⟨combine_eval _ _ (by simp) 0 hex 0 (pyRound1_eq_self 0 0 (by norm_num))
    0 ?_ 1 ?_ _ ?_, by norm_num⟩
  · rw [pyRound1, show (10 : ℚ) * (1/25 + 0) = 2/5 by norm_num,
      rhe_eq_of_floor (2/5) 0 (by norm_num [Int.floor_eq_iff])]
    norm_num
  · rw [hwt]
    norm_num [pyRound2_eq_self 1 100 (by norm_num)]
  · rw [pctOf, if_pos (by norm_num), hex, summaryOf]
    norm_num

/-- C4, amended. The identity total = baseline + extra holds before the
final one-decimal rounding: the returned total is
`round(baseline + extra, 1)` and the returned extra is `round(extra, 1)`
for the same clamped extra, so the returned fields satisfy the identity
only up to 1/10. -/
theorem total_equals_sum_before_rounding (b : ℚ) (s : List Signal) (r : Fused)
    (hr : combine_signals b s = .ok r) :
    r.expected_total_customers_per_hour = pyRound1 (b + extra_clamped b s) ∧
    r.expected_extra_customers_per_hour = pyRound1 (extra_clamped b s) ∧
    |r.expected_total_customers_per_hour -
      (b + r.expected_extra_customers_per_hour)| ≤ 1/10 := by
  have hne : s ≠ [] := by
    intro h
    rw [h] at hr
    simp [combine_signals] at hr
  rw [combine_signals_eq_ok _ _ hne] at hr
  simp only [Except.ok.injEq] at hr
  subst hr
  refine ⟨rfl, rfl, ?_⟩
  have h1 := pyRound1_sub_le (b + extra_clamped b s)
  have h2 := pyRound1_sub_le (extra_clamped b s)
  rw [abs_le] at h1 h2 ⊢
  constructor <;> [linarith [h1.1, h2.2]; linarith [h1.2, h2.1]]

/-- C4, witness for the amended theorem at baseline 42 and one signal. -/
theorem total_equals_sum_before_rounding_witness :
    (43 : ℚ) = pyRound1 (42 + extra_clamped 42 [⟨"x", 1, 1, ""⟩]) ∧
    (1 : ℚ) = pyRound1 (extra_clamped 42 [⟨"x", 1, 1, ""⟩]) ∧
    |(43 : ℚ) - (42 + 1)| ≤ 1/10 := by
  have h := total_equals_sum_before_rounding 42 [⟨"x", 1, 1, ""⟩]
    ⟨1, 43, 1, ["On par with usual"]⟩ combine_42_one
  simpa using h

/-- C3, counterexample. A confidence of 1.5 is used as weight 1.5, not
clamped to 1.0: the fused output for signals [(10, conf 1.5), (0, conf
0.5)] at baseline 42 is extra 7.5, whereas with the confidence clamped to
1.0 before weighting it would be round(20/3, 1) = 6.7. -/
theorem confidence_above_one_not_clamped :
    weight (3/2) = 3/2 ∧ weight (3/2) ≠ weightClamped (3/2) ∧
    combine_signals 42 [⟨"a", 10, 3/2, ""⟩, ⟨"b", 0, 1/2, ""⟩] =
      .ok ⟨15/2, 99/2, 1, ["Above baseline today"]⟩ ∧
    combine_signals 42 [⟨"a", 10, 1, ""⟩, ⟨"b", 0, 1/2, ""⟩] =
      .ok ⟨67/10, 487/10, 3/4, ["Above baseline today"]⟩ ∧
    (15/2 : ℚ) ≠ 67/10 := by
  have hwa : weight (3/2) = 3/2 := max_eq_right (by norm_num)
  have hwb : weight (1/2) = 1/2 := max_eq_right (by norm_num)
  have hw1 : weight 1 = 1 := max_eq_right (by norm_num)
  refine ⟨hwa, ?_, ?_, ?_, by norm_num⟩
  · rw [hwa, weightClamped]
    norm_num
  · have hwt : weight_total [⟨"a", 10, 3/2, ""⟩, ⟨"b", 0, 1/2, ""⟩] = 2 := by
      show weight (3/2) + (weight (1/2) + 0) = 2
      rw [hwa, hwb]
      norm_num
    have hws : weighted_sum [⟨"a", 10, 3/2, ""⟩, ⟨"b", 0, 1/2, ""⟩] = 15 := by
      show 10 * weight (3/2) + (0 * weight (1/2) + 0) = 15
      rw [hwa, hwb]
      norm_num
    have hex : extra_clamped 42 [⟨"a", 10, 3/2, ""⟩, ⟨"b", 0, 1/2, ""⟩] = 15/2 := by
      rw [extra_clamped, extra_raw, hwt, hws]
      norm_num
    refine combine_eval _ _ (by simp) (15/2) hex (15/2)
      (pyRound1_eq_self _ 75 (by norm_num)) (99/2) ?_ 1 ?_ _ ?_
    · rw [show (42 : ℚ) + 15/2 = 99/2 by norm_num]
      exact pyRound1_eq_self _ 495 (by norm_num)
    · rw [hwt]
      norm_num [pyRound2_eq_self 1 100 (by norm_num)]
    · rw [pctOf, if_pos (by norm_num), hex, summaryOf,
        if_neg (by norm_num), if_pos (by norm_num)]
  · have hwt : weight_total [⟨"a", 10, 1, ""⟩, ⟨"b", 0, 1/2, ""⟩] = 3/2 := by
      show weight 1 + (weight (1/2) + 0) = 3/2
      rw [hw1, hwb]
      norm_num
    have hws : weighted_sum [⟨"a", 10, 1, ""⟩, ⟨"b", 0, 1/2, ""⟩] = 10 := by
      show 10 * weight 1 + (0 * weight (1/2) + 0) = 10
      rw [hw1, hwb]
      norm_num
    have hex : extra_clamped 42 [⟨"a", 10, 1, ""⟩, ⟨"b", 0, 1/2, ""⟩] = 20/3 := by
      rw [extra_clamped, extra_raw, hwt, hws]
      norm_num
    refine combine_eval _ _ (by simp) (20/3) hex (67/10) ?_ (487/10) ?_ (3/4) ?_ _ ?_
    · rw [pyRound1, show (10 : ℚ) * (20/3) = 200/3 by norm_num,
        rhe_eq_of_floor (200/3) 66 (by norm_num [Int.floor_eq_iff])]
      norm_num
    · rw [pyRound1, show (10 : ℚ) * (42 + 20/3) = 1460/3 by norm_num,
        rhe_eq_of_floor (1460/3) 486 (by norm_num [Int.floor_eq_iff])]
      norm_num
    · rw [hwt]
      norm_num [pyRound2_eq_self (3/4) 75 (by norm_num)]
    · rw [pctOf, if_pos (by norm_num), hex, summaryOf,
        if_neg (by norm_num), if_pos (by norm_num)]

/-- C3, amended. No upper clamp is applied before weighting: the effective
weight is `max(0.05, confidence)`. For signal lists whose confidences obey
the provider contract (all ≤ 1) this coincides pointwise and in both
fusion accumulators with the claimed `max(0.05, min(1.0, confidence))`. -/
theorem weights_unclamped_but_agree_below_one (s : List Signal)
    (h : ∀ sig ∈ s, sig.confidence ≤ 1) :
    (∀ sig ∈ s, weight sig.confidence = weightClamped sig.confidence) ∧
    weight_total s = weight_totalClamped s ∧
    weighted_sum s = weighted_sumClamped s := by
  have hpt : ∀ sig ∈ s, weight sig.confidence = weightClamped sig.confidence := by
    intro sig hsig
    rw [weight, weightClamped, min_eq_right (h sig hsig)]
  refine ⟨hpt, ?_, ?_⟩
  · rw [weight_total, weight_totalClamped]
    induction s with
    | nil => rfl
    | cons a t ih =>
        simp only [List.map_cons, List.sum_cons]
        rw [hpt a (by simp), ih (fun sig hs => h sig (by simp [hs]))
          (fun sig hs => hpt sig (by simp [hs]))]
  · rw [weighted_sum, weighted_sumClamped]
    induction s with
    | nil => rfl
    | cons a t ih =>
        simp only [List.map_cons, List.sum_cons]
        rw [hpt a (by simp), ih (fun sig hs => h sig (by simp [hs]))
          (fun sig hs => hpt sig (by simp [hs]))]

/-- C3, witness for the amended theorem on two contract-abiding signals. -/
theorem weights_unclamped_but_agree_below_one_witness :
    weight_total [⟨"a", 10, 1, ""⟩, ⟨"b", 0, 1/2, ""⟩] =
      weight_totalClamped [⟨"a", 10, 1, ""⟩, ⟨"b", 0, 1/2, ""⟩] ∧
    weighted_sum [⟨"a", 10, 1, ""⟩, ⟨"b", 0, 1/2, ""⟩] =
      weighted_sumClamped [⟨"a", 10, 1, ""⟩, ⟨"b", 0, 1/2, ""⟩] := by
  have h := weights_unclamped_but_agree_below_one
    [⟨"a", 10, 1, ""⟩, ⟨"b", 0, 1/2, ""⟩]
    (by intro sig hsig; rcases List.mem_cons.mp hsig with rfl | hsig
        · norm_num
        · rcases List.mem_cons.mp hsig with rfl | hsig
          · norm_num
          · simp at hsig)
  exact ⟨h.2.1, h.2.2⟩

/-- One signal of delta 5 and confidence 1 at baseline 10 fuses to extra 5,
total 15 and a percent delta of exactly 50. -/
lemma combine_10_five :
    combine_signals 10 [⟨"x", 5, 1, ""⟩] =
      .ok ⟨5, 15, 1, ["Much higher than usual"]⟩ := by
  have hwt : weight_total [⟨"x", 5, 1, ""⟩] = 1 := by
    show weight 1 + 0 = 1
    rw [show weight 1 = 1 from max_eq_right (by norm_num)]
    norm_num
  have hws : weighted_sum [⟨"x", 5, 1, ""⟩] = 5 := by
    show 5 * weight 1 + 0 = 5
    rw [show weight 1 = 1 from max_eq_right (by norm_num)]
    norm_num
  have hex : extra_clamped 10 [⟨"x", 5, 1, ""⟩] = 5 := by
    rw [extra_clamped, extra_raw, hwt, hws]
    norm_num
  refine combine_eval 10 _ (by simp) 5 hex 5 (pyRound1_eq_self 5 50 (by norm_num))
    15 ?_ 1 ?_ _ ?_
  · rw [show (10 : ℚ) + 5 = 15 by norm_num]
    exact pyRound1_eq_self 15 150 (by norm_num)
  · rw [hwt]
    norm_num [pyRound2_eq_self 1 100 (by norm_num)]
  · rw [pctOf, if_pos (by norm_num), hex, summaryOf]
    norm_num

/-- The percent delta of the `combine_10_five` instance is exactly the
boundary value 50. -/
lemma pctOf_10_five : pctOf 10 [⟨"x", 5, 1, ""⟩] = 50 := by
  have hwt : weight_total [⟨"x", 5, 1, ""⟩] = 1 := by
    show weight 1 + 0 = 1
    rw [show weight 1 = 1 from max_eq_right (by norm_num)]
    norm_num
  have hws : weighted_sum [⟨"x", 5, 1, ""⟩] = 5 := by
    show 5 * weight 1 + 0 = 5
    rw [show weight 1 = 1 from max_eq_right (by norm_num)]
    norm_num
  have hex : extra_clamped 10 [⟨"x", 5, 1, ""⟩] = 5 := by
    rw [extra_clamped, extra_raw, hwt, hws]
    norm_num
  rw [pctOf, if_pos (by norm_num), hex]
  norm_num

/-- C5, confirmed. For baseline > 0 the summary label is a function of
`percentDelta = extra_clamped / baseline × 100`, assigned by the
descending threshold chain with each boundary inclusive on the higher
bucket: 50 ≤ pct gives MuchHigher, 15 ≤ pct < 50 AboveBaseline,
-15 ≤ pct < 15 OnPar, -40 ≤ pct < -15 BelowBaseline, pct < -40
MuchLower; so the exact boundaries 50, 15, -15, -40 land in the higher
bucket. -/
theorem summary_label_buckets (b : ℚ) (s : List Signal) (r : Fused)
    (hb : 0 < b) (hr : combine_signals b s = .ok r) :
    pctOf b s = extra_clamped b s / b * 100 ∧
    (50 ≤ pctOf b s → r.summary = ["Much higher than usual"]) ∧
    (15 ≤ pctOf b s ∧ pctOf b s < 50 → r.summary = ["Above baseline today"]) ∧
    (-15 ≤ pctOf b s ∧ pctOf b s < 15 → r.summary = ["On par with usual"]) ∧
    (-40 ≤ pctOf b s ∧ pctOf b s < -15 → r.summary = ["Below baseline today"]) ∧
    (pctOf b s < -40 → r.summary = ["Much lower than usual"]) := by
  have hne : s ≠ [] := by
    intro h
    rw [h] at hr
    simp [combine_signals] at hr
  rw [combine_signals_eq_ok _ _ hne] at hr
  simp only [Except.ok.injEq] at hr
  subst hr
  refine ⟨by rw [pctOf, if_pos (ne_of_gt hb)], ?_, ?_, ?_, ?_, ?_⟩
  · intro h
    show summaryOf _ = _
    rw [summaryOf, if_pos h]
  · rintro ⟨h1, h2⟩
    show summaryOf _ = _
    rw [summaryOf, if_neg (by linarith), if_pos h1]
  · rintro ⟨h1, h2⟩
    show summaryOf _ = _
    rw [summaryOf, if_neg (by linarith), if_neg (by linarith), if_pos h1]
  · rintro ⟨h1, h2⟩
    show summaryOf _ = _
    rw [summaryOf, if_neg (by linarith), if_neg (by linarith),
      if_neg (by linarith), if_pos h1]
  · intro h
    show summaryOf _ = _
    rw [summaryOf, if_neg (by linarith), if_neg (by linarith),
      if_neg (by linarith), if_neg (by linarith)]

/-- C5, witness: at baseline 10 one signal of delta 5 lands exactly on the
boundary percentDelta = 50 and is labelled MuchHigher. -/
theorem summary_label_buckets_witness :
    combine_signals 10 [⟨"x", 5, 1, ""⟩] =
      .ok ⟨5, 15, 1, ["Much higher than usual"]⟩ ∧
    pctOf 10 [⟨"x", 5, 1, ""⟩] = 50 ∧
    (Fused.mk 5 15 1 ["Much higher than usual"]).summary =
      ["Much higher than usual"] := by
  have h := summary_label_buckets 10 [⟨"x", 5, 1, ""⟩]
    ⟨5, 15, 1, ["Much higher than usual"]⟩ (by norm_num) combine_10_five
  exact ⟨combine_10_five, pctOf_10_five, h.2.1 (by rw [pctOf_10_five])⟩

/-- C9, counterexample. On the empty signal list `combine_signals` raises
ZeroDivisionError: the overall-confidence expression divides
`weight_total` by `len(signals) = 0` with no guard. -/
theorem empty_signals_division_error :
    combine_signals 42 [] = .error "division by zero" := by
  rw [combine_signals, if_pos rfl]

/-- C9, amended. The division producing `extra_customers` is guarded and
`weight_total > 0` in fact always holds for a nonempty list (every weight
is at least the 0.05 floor), so for every nonempty signal list
`combine_signals` returns a result; only the empty list raises, through
the unguarded division by `len(signals)` in the overall confidence. -/
theorem nonempty_signals_never_raise (b : ℚ) (s : List Signal) (h : s ≠ []) :
    0 < weight_total s ∧ ∃ r, combine_signals b s = .ok r :=
  ⟨weight_total_pos s h, ⟨_, combine_signals_eq_ok b s h⟩⟩

/-- C9, witness for the amended theorem on a one-signal list. -/
theorem nonempty_signals_never_raise_witness :
    0 < weight_total [⟨"x", 1, 1, ""⟩] ∧
    ∃ r, combine_signals 42 [⟨"x", 1, 1, ""⟩] = .ok r :=
  nonempty_signals_never_raise 42 [⟨"x", 1, 1, ""⟩] (by simp)

/-- C2, counterexample. With one failed provider the run returns three
signals, but no signal dict carries a `succeeded` key at all — so the
failed entry does not have `succeeded = false`. -/
theorem fallback_signal_lacks_succeeded_field :
    (∃ res, runAgent 42 (.error "boom")
        (.ok ⟨"google_traffic", 3, 1/2, ""⟩) (.ok ⟨"mta_subway", 2, 1/2, ""⟩) = .ok res ∧
      res.signals.map (fun s => (Signal.toDict s).lookup "succeeded") =
        [none, none, none]) ∧
    (none : Option PyVal) ≠ some (.bool false) := by
  refine ⟨⟨_, runAgent_eq _ _ _ _, ?_⟩, by simp⟩
  simp [resolveSignal, fallbackSignal, Signal.toDict, List.lookup]

/-- C2, amended. Whichever subset of the three providers fails, `run`
returns a fused result (never an error) whose signal list has exactly
three entries; the entry of each failed provider is the fallback signal
with delta 0 and confidence 0.05. Failure is recorded in the fallback
explanation (`Agent error: ...`), not in a `succeeded` flag, which no
signal carries. -/
theorem graceful_degradation_shape (b : ℚ) (r0 r1 r2 : Except String Signal) :
    ∃ res, runAgent b r0 r1 r2 = .ok res ∧ res.signals.length = 3 ∧
      (∀ e, r0 = .error e → res.signals[0]? = some (fallbackSignal "weather_event" e)) ∧
      (∀ e, r1 = .error e → res.signals[1]? = some (fallbackSignal "google_traffic" e)) ∧
      (∀ e, r2 = .error e → res.signals[2]? = some (fallbackSignal "mta_subway" e)) ∧
      (∀ name e, (fallbackSignal name e).extra_customers_per_hour = 0 ∧
        (fallbackSignal name e).confidence = 1/20 ∧
        (Signal.toDict (fallbackSignal name e)).lookup "succeeded" = none) := by
  refine ⟨_, runAgent_eq b r0 r1 r2, by simp, ?_, ?_, ?_, ?_⟩
  · intro e he
    subst he
    simp [resolveSignal]
  · intro e he
    subst he
    simp [resolveSignal]
  · intro e he
    subst he
    simp [resolveSignal]
  · intro name e
    refine ⟨rfl, rfl, ?_⟩
    simp [Signal.toDict, List.lookup]

/-- C2, witness for the amended theorem: first provider fails, the other
two succeed. -/
theorem graceful_degradation_shape_witness :
    ∃ res, runAgent 42 (.error "boom") (.ok ⟨"google_traffic", 3, 1/2, ""⟩)
        (.ok ⟨"mta_subway", 2, 1/2, ""⟩) = .ok res ∧
      res.signals.length = 3 ∧
      res.signals[0]? = some (fallbackSignal "weather_event" "boom") := by
  obtain ⟨res, h1, h2, h3, -, -, -⟩ := graceful_degradation_shape 42 (.error "boom")
    (.ok ⟨"google_traffic", 3, 1/2, ""⟩) (.ok ⟨"mta_subway", 2, 1/2, ""⟩)
  exact ⟨res, h1, h2, h3 "boom" rfl⟩

/-- A cache lookup on the empty cache misses and changes nothing. -/
lemma getCached_empty (now : ℚ) (k : ℚ × String × String) :
    getCached emptyCache now k = (none, emptyCache) := rfl

/-- C6, confirmed. A lookup at or past the stored expiry is a miss and
deletes the entry; a lookup strictly before the expiry returns the stored
result and leaves the cache unchanged; and on such a hit the endpoint
returns the cached result with no provider dispatch. -/
theorem cache_expiry_and_hit (c : Cache) (now : ℚ) (k : ℚ × String × String)
    (e : ℚ) (v : RunResult) (hk : c k = some (e, v)) :
    (e ≤ now → (getCached c now k).1 = none ∧ (getCached c now k).2 k = none) ∧
    (now < e → getCached c now k = (some v, c)) ∧
    (∀ b d t r0 r1 r2, k = cache_key b d t → now < e →
      forecastEndpoint c now (some b) d t r0 r1 r2 = (.ok v, c, false)) := by
  refine ⟨?_, ?_, ?_⟩
  · intro h
    simp [getCached, hk, h]
  · intro h
    simp [getCached, hk, not_le.mpr h]
  · intro b d t r0 r1 r2 hkey h
    subst hkey
    simp [forecastEndpoint, getCached, hk, not_le.mpr h]

/-- A sample stored forecast used for concrete cache statements. -/
def sampleRun : RunResult := ⟨42, [], ⟨0, 42, 1, ["On par with usual"]⟩⟩

/-- C6, witness: an entry stored at time 0 (TTL 1800 s) misses at time
2000, hits at time 10 and is then served by the endpoint without any
provider dispatch. -/
theorem cache_expiry_and_hit_witness :
    (getCached (setCached emptyCache 0 (cache_key 42 none none) sampleRun)
      2000 (cache_key 42 none none)).1 = none ∧
    getCached (setCached emptyCache 0 (cache_key 42 none none) sampleRun)
      10 (cache_key 42 none none) =
      (some sampleRun, setCached emptyCache 0 (cache_key 42 none none) sampleRun) ∧
    forecastEndpoint (setCached emptyCache 0 (cache_key 42 none none) sampleRun)
      10 (some 42) none none (.ok ⟨"weather_event", 0, 1/2, ""⟩)
      (.ok ⟨"google_traffic", 0, 1/2, ""⟩) (.ok ⟨"mta_subway", 0, 1/2, ""⟩) =
      (.ok sampleRun, setCached emptyCache 0 (cache_key 42 none none) sampleRun,
        false) := by
  have hk : setCached emptyCache 0 (cache_key 42 none none) sampleRun
      (cache_key 42 none none) = some (1800, sampleRun) := by
    simp [setCached, CACHE_TTL_SECONDS]
    norm_num
  have hmiss := cache_expiry_and_hit _ 2000 (cache_key 42 none none) 1800 sampleRun hk
  have hhit := cache_expiry_and_hit _ 10 (cache_key 42 none none) 1800 sampleRun hk
  exact ⟨(hmiss.1 (by norm_num)).1, hhit.2.1 (by norm_num),
    hhit.2.2 42 none none _ _ _ rfl (by norm_num)⟩

/-- C7, counterexample. Baselines 42.04 and 42.01 agree after rounding to
one decimal, yet produce different cache keys with the same date and
hour: the key embeds the exact baseline, not a rounded one. -/
theorem cache_key_not_rounded :
    pyRound1 (1051/25) = pyRound1 (4201/100) ∧
    cache_key (1051/25) none none ≠ cache_key (4201/100) none none := by
  constructor
  · rw [pyRound1, pyRound1, show (10 : ℚ) * (1051/25) = 2102/5 by norm_num,
      show (10 : ℚ) * (4201/100) = 4201/10 by norm_num,
      rhe_eq_of_floor (2102/5) 420 (by norm_num [Int.floor_eq_iff]),
      rhe_eq_of_floor (4201/10) 420 (by norm_num [Int.floor_eq_iff])]
    norm_num
  · intro h
    have hb : (1051/25 : ℚ) = 4201/100 := congrArg Prod.fst h
    norm_num at hb

/-- C7, amended. The cache key is computed from the exact baseline (no
rounding), the date and the hour: with the same date and hour, two
requests share a key exactly when their baselines are equal. -/
theorem cache_key_determined_by_exact_baseline (b1 b2 : ℚ) (d : Option String)
    (t : Option ℤ) :
    cache_key b1 d t = cache_key b2 d t ↔ b1 = b2 := by
  constructor
  · intro h
    exact congrArg Prod.fst h
  · intro h
    rw [h]

/-- A fresh request on the empty cache runs the agent, stores the result
and reports the provider dispatch. -/
lemma forecastEndpoint_empty (now b : ℚ) (d : Option String) (t : Option ℤ)
    (r0 r1 r2 : Except String Signal) (res : RunResult)
    (hres : runAgent b r0 r1 r2 = .ok res) :
    forecastEndpoint emptyCache now (some b) d t r0 r1 r2 =
      (.ok res, setCached emptyCache now (cache_key b d t) res, true) := by
  simp only [forecastEndpoint, getCached_empty]
  rw [hres]

/-- C8, counterexample. A request with baseline −10 is not rejected: the
endpoint dispatches all three providers (flag `true`) and returns a
forecast, so no error is surfaced before provider dispatch. -/
theorem negative_baseline_not_rejected :
    (forecastEndpoint emptyCache 0 (some (-10)) none none
      (.ok ⟨"weather_event", 0, 1/2, ""⟩) (.ok ⟨"google_traffic", 0, 1/2, ""⟩)
      (.ok ⟨"mta_subway", 0, 1/2, ""⟩)).2.2 = true ∧
    ∃ res, (forecastEndpoint emptyCache 0 (some (-10)) none none
      (.ok ⟨"weather_event", 0, 1/2, ""⟩) (.ok ⟨"google_traffic", 0, 1/2, ""⟩)
      (.ok ⟨"mta_subway", 0, 1/2, ""⟩)).1 = .ok res := by
  rw [forecastEndpoint_empty 0 (-10) none none _ _ _ _
    (runAgent_eq (-10) (.ok ⟨"weather_event", 0, 1/2, ""⟩)
      (.ok ⟨"google_traffic", 0, 1/2, ""⟩) (.ok ⟨"mta_subway", 0, 1/2, ""⟩))]
  exact ⟨rfl, _, rfl⟩

/-- C8, amended. The endpoint performs no baseline validation: for every
baseline ≤ 0 a fresh request proceeds to provider dispatch and returns a
fused forecast rather than failing fast. -/
theorem no_baseline_validation (b : ℚ) (_hb : b ≤ 0) (d : Option String)
    (t : Option ℤ) (now : ℚ) (r0 r1 r2 : Except String Signal) :
    (forecastEndpoint emptyCache now (some b) d t r0 r1 r2).2.2 = true ∧
    ∃ res, (forecastEndpoint emptyCache now (some b) d t r0 r1 r2).1 = .ok res := by
  rw [forecastEndpoint_empty now b d t _ _ _ _ (runAgent_eq b r0 r1 r2)]
  exact ⟨rfl, _, rfl⟩

/-- C8, witness for the amended theorem at baseline −10. -/
theorem no_baseline_validation_witness :
    (forecastEndpoint emptyCache 0 (some (-10)) none none
      (.ok ⟨"weather_event", 1, 1/2, ""⟩) (.ok ⟨"google_traffic", 1, 1/2, ""⟩)
      (.ok ⟨"mta_subway", 1, 1/2, ""⟩)).2.2 = true ∧
    ∃ res, (forecastEndpoint emptyCache 0 (some (-10)) none none
      (.ok ⟨"weather_event", 1, 1/2, ""⟩) (.ok ⟨"google_traffic", 1, 1/2, ""⟩)
      (.ok ⟨"mta_subway", 1, 1/2, ""⟩)).1 = .ok res :=
  no_baseline_validation (-10) (by norm_num) none none 0
    (.ok ⟨"weather_event", 1, 1/2, ""⟩) (.ok ⟨"google_traffic", 1, 1/2, ""⟩)
    (.ok ⟨"mta_subway", 1, 1/2, ""⟩)

/-- C10, confirmed. `time or ''` treats the hour 0 as falsy, so a request
at hour 0 and a request with no hour produce the identical cache key for
every baseline and date, and therefore share one cache entry. -/
theorem midnight_and_missing_hour_share_key (b : ℚ) (d : Option String) :
    cache_key b d (some 0) = cache_key b d none := rfl

end FootTraffic
